import Mathlib

/-!
Verification of the meshcore-proxy gateway core against its specification.

The Python source (src/meshcore_proxy/proxy.py, src/meshcore_proxy/decoder.py,
src/meshcore_proxy/cli.py) is shallowly embedded below: bytes are `Nat`s
(values < 256 in every reachable use), byte strings are `List Nat`,
Python `dict`s are insertion-ordered association lists, and fallible
operations return `Except`.
-/

namespace MeshcoreProxy


/-- Frame-parsing state of one TCP client session.  Mirrors the four
parsing fields of the `TCPClient` dataclass in proxy.py (the asyncio
reader/writer handles and the peer address are I/O identities kept outside
this record; the session registry below pairs each state with its address
key).  Defaults match the dataclass defaults. -/
structure TCPClient where
  frame_started : Bool := false
  frame_size : Nat := 0
  header : List Nat := []
  inframe : List Nat := []
  deriving DecidableEq, Repr

/-- A freshly accepted client session: all dataclass defaults. -/
def freshTCPClient : TCPClient := {}

/-- Python `int.from_bytes(bs, byteorder="little")` on a byte string. -/
def le_from_bytes : List Nat → Nat
  | [] => 0
  | b :: bs => b + 256 * le_from_bytes bs

/-- Python `n.to_bytes(2, byteorder="little")`.  Exact for `n ≤ 65535`;
Python raises `OverflowError` above that, which never occurs in the uses
proved about below (frame payloads are at most 65535 bytes). -/
def to_bytes_le2 (n : Nat) : List Nat := [n % 256, n / 256]

/-- `MeshCoreProxy._frame_payload`: `b"\x3c" + size.to_bytes(2, "little") + payload`. -/
def _frame_payload (payload : List Nat) : List Nat :=
  0x3c :: to_bytes_le2 payload.length ++ payload

/-- Measure for the `while offset < len(data)` loop of
`MeshCoreProxy._parse_tcp_frame`: each iteration either consumes bytes or
moves the header/frame phase forward. -/
def parseMeasure (st : TCPClient) (remaining : List Nat) : Nat :=
  3 * remaining.length +
    (if st.frame_started then 1 else if 3 ≤ st.header.length then 2 else 0)

/-- The body of `MeshCoreProxy._parse_tcp_frame`, written over the suffix
`remaining = data[offset:]` of the input: one recursive call per loop
iteration.  Returns the mutated client state and the list of completed
payloads, in emission order. -/
def parseLoop (st : TCPClient) (remaining : List Nat) : TCPClient × List (List Nat) :=
  if _hrem : remaining = [] then (st, [])
  else if _hstart : st.frame_started = false then
    -- Need 3-byte header: 0x3c + 2-byte size
    if _hlen : 3 - st.header.length ≤ remaining.length then
      let header1 := st.header ++ remaining.take (3 - st.header.length)
      parseLoop ⟨true, le_from_bytes (header1.drop 1), header1, st.inframe⟩
        (remaining.drop (3 - st.header.length))
    else ({ st with header := st.header ++ remaining }, [])
  else
    -- Accumulate frame data
    if _hlen : st.frame_size - st.inframe.length ≤ remaining.length then
      let r := parseLoop ⟨false, st.frame_size, [], []⟩
        (remaining.drop (st.frame_size - st.inframe.length))
      (r.1, (st.inframe ++ remaining.take (st.frame_size - st.inframe.length)) :: r.2)
    else ({ st with inframe := st.inframe ++ remaining }, [])
termination_by parseMeasure st remaining
decreasing_by
  all_goals
    simp only [parseMeasure, List.length_drop, List.length_nil]
    have hne : remaining.length ≠ 0 := fun h => _hrem (List.length_eq_zero.mp h)
    first
      | (rw [_hstart]
         by_cases h3 : 3 ≤ st.header.length <;> simp [h3] <;> omega)
      | (rw [show st.frame_started = true by simpa using _hstart]
         simp only [if_true]
         norm_num
         omega)

/-- `MeshCoreProxy._parse_tcp_frame(client, data)`: run the loop from
`offset = 0`. -/
def _parse_tcp_frame (st : TCPClient) (data : List Nat) : TCPClient × List (List Nat) :=
  parseLoop st data

/-! ### Feeding a session a sequence of reads -/

/-- The per-client receive loop of `MeshCoreProxy._handle_tcp_client`
restricted to its parsing effect: each TCP read (`chunk`) is handed to
`_parse_tcp_frame` with the session's accumulated state; completed payloads
are collected in order. -/
def feedChunks (st : TCPClient) : List (List Nat) → TCPClient × List (List Nat)
  | [] => (st, [])
  | c :: cs =>
    let r := _parse_tcp_frame st c
    let r2 := feedChunks r.1 cs
    (r2.1, r.2 ++ r2.2)

/-- `encode(P1) + encode(P2) + ... + encode(Pn)`. -/
def encodeAll (ps : List (List Nat)) : List Nat := (ps.map _frame_payload).flatten

/-! ### The session registry (`self._clients`) -/

/-- The session registry `self._clients : dict[tuple, TCPClient]`:
an insertion-ordered association list from the peer-address key (modelled
as a `Nat`) to the session.  Python `dict` keys are unique; theorems that
need this carry a `Nodup` hypothesis on the keys. -/
abbrev Registry := List (Nat × TCPClient)

/-- The keys currently present in the registry. -/
def keys (m : Registry) : List Nat := m.map Prod.fst

/-- `MeshCoreProxy._remove_client(addr)`: if the key is present, pop the
session and close its socket best-effort (the returned flag records whether
a close was attempted); otherwise do nothing. -/
def _remove_client (clients : Registry) (addr : Nat) : Registry × Bool :=
  if clients.any (fun c => c.1 == addr) then
    (clients.eraseP (fun c => c.1 == addr), true)
  else (clients, false)

/-! ### Broadcast of radio-origin payloads (`_handle_radio_rx`) -/

/-- One iteration of the `for addr, client in self._clients.items()` loop in
`_handle_radio_rx`: a successful write appends `(addr, framed)` to the
delivered list, a failing write appends `addr` to `disconnected`. -/
def broadcast_step (writeOk : Nat → Bool) (framed : List Nat)
    (acc : List (Nat × List Nat) × List Nat) (c : Nat × TCPClient) :
    List (Nat × List Nat) × List Nat :=
  if writeOk c.1 then (acc.1 ++ [(c.1, framed)], acc.2) else (acc.1, acc.2 ++ [c.1])

/-- `MeshCoreProxy._handle_radio_rx(payload)`: an empty payload returns
immediately; otherwise log the event, frame the payload once, write the
framed bytes to every registered session (collecting failures), then remove
every failed session.  `writeOk` is the per-session outcome of
`client.writer.write/drain`.  Returns the resulting registry, the
`(addr, bytes)` writes that succeeded, and the `_log_event` call (if any)
as `(packet_type, payload)`. -/
def _handle_radio_rx (writeOk : Nat → Bool) (clients : Registry)
    (payload : List Nat) :
    Registry × List (Nat × List Nat) × Option (Nat × List Nat) :=
  if payload.length = 0 then (clients, [], none)
  else
    let framed := _frame_payload payload
    let r := clients.foldl (broadcast_step writeOk framed) ([], [])
    (r.2.foldl (fun m a => (_remove_client m a).1) clients, r.1,
      some (payload.headD 0, payload))

/-! ### The per-client handler (`_handle_tcp_client`) and radio sends -/

/-- `self._clients[addr] = client`: Python dict assignment replaces an
existing entry in place, otherwise appends at the end. -/
def dict_set (clients : Registry) (addr : Nat) (cl : TCPClient) : Registry :=
  if clients.any (fun c => c.1 == addr) then
    clients.map (fun c => if c.1 == addr then (addr, cl) else c)
  else clients ++ [(addr, cl)]

/-- `MeshCoreProxy._send_to_radio(payload)`.  `radioConn` is whether
`self._radio_connection` is set; `sendRaises` is whether the transport's
`send` coroutine raises for a given payload.  `.ok none` models the
"Radio not connected" log-and-return path, `.ok (some p)` a completed send,
and `.error ()` an exception escaping `_send_to_radio` (the function body
has no try/except around `self._radio_connection.send`). -/
def _send_to_radio (radioConn : Bool) (sendRaises : List Nat → Bool)
    (payload : List Nat) : Except Unit (Option (List Nat)) :=
  if !radioConn then Except.ok none
  else if sendRaises payload then Except.error ()
  else Except.ok (some payload)

/-- The `for payload in payloads: await self._send_to_radio(payload)` loop:
returns `true` when some send raised (aborting the handler loop). -/
def sendPayloads (radioConn : Bool) (sendRaises : List Nat → Bool) :
    List (List Nat) → Bool
  | [] => false
  | p :: ps =>
    match _send_to_radio radioConn sendRaises p with
    | Except.error _ => true
    | Except.ok _ => sendPayloads radioConn sendRaises ps

/-- The `while True` read loop of `_handle_tcp_client`, driven by a finite
list of read outcomes: `none` models `reader.read` raising, `some []` an
EOF read (`if not data: break`), `some d` a successful read of `d`.
Returns the session's final parse state and whether the loop terminated
(by EOF, read error, or an exception escaping a radio send) — termination
is what makes the `finally: await self._remove_client(addr)` run. -/
def clientLoop (radioConn : Bool) (sendRaises : List Nat → Bool)
    (cl : TCPClient) : List (Option (List Nat)) → TCPClient × Bool
  | [] => (cl, false)
  | none :: _ => (cl, true)
  | some [] :: _ => (cl, true)
  | some (b :: bs) :: rest =>
    let r := _parse_tcp_frame cl (b :: bs)
    if sendPayloads radioConn sendRaises r.2 then (r.1, true)
    else clientLoop radioConn sendRaises r.1 rest

/-- `MeshCoreProxy._handle_tcp_client`: register the fresh session, run the
read loop, and — exactly when the loop terminated — run the `finally`
block's eviction. -/
def _handle_tcp_client (radioConn : Bool) (sendRaises : List Nat → Bool)
    (clients : Registry) (addr : Nat)
    (events : List (Option (List Nat))) : Registry :=
  let r := clientLoop radioConn sendRaises freshTCPClient events
  let m1 := dict_set clients addr r.1
  if r.2 then (_remove_client m1 addr).1 else m1

/-! ### Radio connection and `run` (C4) -/

/-- `MeshCoreProxy._connect_radio()`: constructs the transport and awaits
`connect()`; a `None` result (or an exception from the transport) makes the
attempt fail with `ConnectionError("Failed to connect to radio")`.
`connectOk` is whether this attempt's `connect()` succeeds. -/
def _connect_radio (connectOk : Bool) : Except String Unit :=
  if connectOk then Except.ok () else Except.error "Failed to connect to radio"

/-- `MeshCoreProxy.run()`: logs, awaits `_connect_radio()` exactly once —
with no `try`, no backoff wait, and no retry loop — then (on success)
starts the TCP server.  `connectResults` lists the outcome each successive
transport connect attempt WOULD have; `run` consumes only the first.
Returns the number of connect attempts made together with `run`'s outcome
(`Except.error` = the exception propagating out of `run`, which ends the
proxy task). -/
def run (connectResults : List Bool) : Nat × Except String Unit :=
  (1, _connect_radio (connectResults.headD false))

/-! ### The packet decoder (decoder.py)

Byte buffers are `io.BytesIO` objects read strictly left to right, modelled
as the list of not-yet-consumed bytes.  `buf.read(k)` never raises (it
returns at most `k` bytes); the only raising primitives in decoder.py are
`buf.read(1)[0]` (IndexError on an exhausted buffer, `bread1` below) and
`struct.unpack` (whose two uses are length-guarded).  Python exceptions are
the `Except.error` case; the `try/except Exception: pass` wrapper of
`decode_response`/`decode_command` turns them into `None`. -/

/-- `buf.read(k)`: up to `k` bytes, and the remaining buffer. -/
def bread (k : Nat) (s : List Nat) : List Nat × List Nat := (s.take k, s.drop k)

/-- `buf.read(1)[0]`: raises `IndexError` on an exhausted buffer. -/
def bread1 : List Nat → Except Unit (Nat × List Nat)
  | [] => Except.error ()
  | b :: s => Except.ok (b, s)

/-- `buf.read()`: all remaining bytes. -/
def breadAll (s : List Nat) : List Nat × List Nat := (s, [])

/-- `int.from_bytes(bs, byteorder="little", signed=True)`. -/
def le_from_bytes_signed (bs : List Nat) : Int :=
  if bs = [] then 0
  else
    let v := le_from_bytes bs
    if 2 * v < 2 ^ (8 * bs.length) then (v : Int)
    else (v : Int) - 2 ^ (8 * bs.length)

/-- One lowercase hex digit. -/
def hexDigit (n : Nat) : Char :=
  if n < 10 then Char.ofNat (48 + n) else Char.ofNat (87 + n)

/-- `bs.hex()`: two lowercase hex digits per byte. -/
def bytes_hex (bs : List Nat) : String :=
  String.mk (bs.flatMap (fun b => [hexDigit (b / 16 % 16), hexDigit (b % 16)]))

/-- `bs.decode("utf-8", "ignore")`, modelled on the ASCII fragment: bytes
below 0x80 decode to themselves and all others are dropped.  (Real lossy
UTF-8 decoding also reassembles multi-byte sequences; the claims proved
here depend only on this function being total and on its ASCII behaviour.) -/
def decode_utf8_ignore (bs : List Nat) : String :=
  String.mk ((bs.filter (fun b => decide (b < 128))).map Char.ofNat)

/-- Python `s.replace("\0", "")`. -/
def strip_nul (s : String) : String :=
  String.mk (s.data.filter (fun c => c != Char.ofNat 0))

/-- Python `s.rstrip("\x00")`. -/
def rstrip_nul (s : String) : String :=
  String.mk ((s.data.reverse.dropWhile (fun c => c == Char.ofNat 0)).reverse)

/-- Python `s[:n]` on a string. -/
def str_take (s : String) (n : Nat) : String := String.mk (s.data.take n)

/-- `text[:n] + "..." if len(text) > n else text`. -/
def preview (s : String) (n : Nat) : String :=
  if n < s.data.length then str_take s n ++ "..." else s

/-- A Python value as produced by decoder.py: strings, ints, bools, floats
(every float in decoder.py is an exact integer ratio `num / den` with
`den ∈ {4, 1000, 1000000}`, represented exactly), `None`, and the one
nested string-to-string dict (`vars`). -/
inductive PyVal where
  | str (v : String)
  | int (v : Int)
  | bool (v : Bool)
  | flt (num : Int) (den : Nat)
  | pynone
  | dict (v : List (String × String))
  deriving DecidableEq, Repr

/-- A decoded field mapping, in Python dict insertion order. -/
abbrev Dict := List (String × PyVal)

/-- Python `d[k] = v` on a string dict: replace in place, else append. -/
def str_dict_set (d : List (String × String)) (k v : String) :
    List (String × String) :=
  if d.any (fun c => c.1 == k) then
    d.map (fun c => if c.1 == k then (k, v) else c)
  else d ++ [(k, v)]

/-- `_decode_contact`: a contact record. -/
def _decode_contact (buf0 : List Nat) : Except Unit Dict := do
  let (public_key, buf1) := bread 32 buf0
  let (contact_type, buf2) ← bread1 buf1
  let (_flags, buf3) ← bread1 buf2
  let (path_len_b, buf4) := bread 1 buf3
  let (_path, buf5) := bread 64 buf4
  let (name_b, buf6) := bread 32 buf5
  let (last_advert_b, buf7) := bread 4 buf6
  let (lat_b, buf8) := bread 4 buf7
  let (lon_b, _buf9) := bread 4 buf8
  let lat := le_from_bytes_signed lat_b
  let lon := le_from_bytes_signed lon_b
  let type_name := match contact_type with
    | 0 => "node"
    | 1 => "repeater"
    | 2 => "room"
    | t => "unknown(" ++ toString t ++ ")"
  Except.ok [("name", PyVal.str (strip_nul (decode_utf8_ignore name_b))),
    ("public_key", PyVal.str (str_take (bytes_hex public_key) 12 ++ "...")),
    ("type", PyVal.str type_name),
    ("path_len", PyVal.int (le_from_bytes_signed path_len_b)),
    ("last_advert", PyVal.int (le_from_bytes last_advert_b)),
    ("lat", if lat = 0 then PyVal.pynone else PyVal.flt lat 1000000),
    ("lon", if lon = 0 then PyVal.pynone else PyVal.flt lon 1000000)]

/-- `_decode_self_info`: the SELF_INFO response. -/
def _decode_self_info (buf0 : List Nat) : Except Unit Dict := do
  let (adv_type, buf1) ← bread1 buf0
  let (tx_power, buf2) ← bread1 buf1
  let (_max_tx_power, buf3) ← bread1 buf2
  let (public_key, buf4) := bread 32 buf3
  let (lat_b, buf5) := bread 4 buf4
  let (lon_b, buf6) := bread 4 buf5
  let (_multi_acks, buf7) := bread 1 buf6
  let (_adv_loc_policy, buf8) := bread 1 buf7
  let (_telemetry_mode, buf9) := bread 1 buf8
  let (_manual_add, buf10) := bread 1 buf9
  let (freq_b, buf11) := bread 4 buf10
  let (bw_b, buf12) := bread 4 buf11
  let (sf, buf13) ← bread1 buf12
  let (cr, buf14) ← bread1 buf13
  let (name_b, _) := breadAll buf14
  let lat := le_from_bytes_signed lat_b
  let lon := le_from_bytes_signed lon_b
  let type_name := match adv_type with
    | 0 => "node"
    | 1 => "client"
    | 2 => "repeater"
    | 3 => "room"
    | t => "unknown(" ++ toString t ++ ")"
  Except.ok [("name", PyVal.str (decode_utf8_ignore name_b)),
    ("type", PyVal.str type_name),
    ("public_key", PyVal.str (str_take (bytes_hex public_key) 12 ++ "...")),
    ("tx_power", PyVal.int tx_power),
    ("freq_mhz", PyVal.flt (le_from_bytes freq_b) 1000),
    ("bw_khz", PyVal.flt (le_from_bytes bw_b) 1000),
    ("sf", PyVal.int sf),
    ("cr", PyVal.int cr),
    ("lat", if lat = 0 then PyVal.pynone else PyVal.flt lat 1000000),
    ("lon", if lon = 0 then PyVal.pynone else PyVal.flt lon 1000000)]

/-- `_decode_device_info`.  (`payload[1]` cannot raise here: it is evaluated
only after `buf.read(1)[0]` succeeded, so `len(payload) ≥ 2`; `getD` keeps
the model total.) -/
def _decode_device_info (buf0 payload : List Nat) : Except Unit Dict := do
  let (fw_ver, buf1) ← bread1 buf0
  if 3 ≤ payload.getD 1 0 ∧ 60 < payload.length then
    let (max_contacts, buf2) ← bread1 buf1
    let (max_channels, buf3) ← bread1 buf2
    let (_ble_pin_b, buf4) := bread 4 buf3
    let (fw_build_b, buf5) := bread 12 buf4
    let (model_b, buf6) := bread 40 buf5
    let (version_b, _) := bread 20 buf6
    Except.ok [("fw_version", PyVal.int fw_ver),
      ("max_contacts", PyVal.int (max_contacts * 2)),
      ("max_channels", PyVal.int max_channels),
      ("fw_build", PyVal.str (strip_nul (decode_utf8_ignore fw_build_b))),
      ("model", PyVal.str (strip_nul (decode_utf8_ignore model_b))),
      ("version", PyVal.str (strip_nul (decode_utf8_ignore version_b)))]
  else
    Except.ok [("fw_version", PyVal.int fw_ver)]

/-- `_decode_channel_info`. -/
def _decode_channel_info (buf0 : List Nat) : Except Unit Dict := do
  let (idx, buf1) ← bread1 buf0
  let (name_bytes, _) := bread 32 buf1
  let name := match name_bytes.findIdx? (fun b => b == 0) with
    | some p => decode_utf8_ignore (name_bytes.take p)
    | none => decode_utf8_ignore name_bytes
  Except.ok [("channel_idx", PyVal.int idx), ("name", PyVal.str name)]

/-- `_decode_contact_msg`. -/
def _decode_contact_msg (buf0 : List Nat) : Except Unit Dict := do
  let (pk_b, buf1) := bread 6 buf0
  let (path_len, buf2) ← bread1 buf1
  let (txt_type, buf3) ← bread1 buf2
  let (ts_b, buf4) := bread 4 buf3
  let base : Dict := [("from", PyVal.str (bytes_hex pk_b)),
    ("path_len", PyVal.int path_len),
    ("timestamp", PyVal.int (le_from_bytes ts_b))]
  let type_name := match txt_type with
    | 0 => "text"
    | 1 => "command"
    | 2 => "signed"
    | t => "unknown(" ++ toString t ++ ")"
  if txt_type = 2 then
    let (sig_b, buf5) := bread 4 buf4
    let (text_b, _) := breadAll buf5
    Except.ok (base ++ [("signature", PyVal.str (bytes_hex sig_b)),
      ("text", PyVal.str (preview (decode_utf8_ignore text_b) 100)),
      ("type", PyVal.str type_name)])
  else
    let (text_b, _) := breadAll buf4
    Except.ok (base ++ [("text", PyVal.str (preview (decode_utf8_ignore text_b) 100)),
      ("type", PyVal.str type_name)])

/-- `_decode_channel_msg`. -/
def _decode_channel_msg (buf0 : List Nat) : Except Unit Dict := do
  let (channel_idx, buf1) ← bread1 buf0
  let (path_len, buf2) ← bread1 buf1
  let (txt_type, buf3) ← bread1 buf2
  let (ts_b, buf4) := bread 4 buf3
  let (text_b, _) := breadAll buf4
  let type_name := match txt_type with
    | 0 => "text"
    | 1 => "command"
    | t => "unknown(" ++ toString t ++ ")"
  Except.ok [("channel", PyVal.int channel_idx),
    ("path_len", PyVal.int path_len),
    ("timestamp", PyVal.int (le_from_bytes ts_b)),
    ("text", PyVal.str (preview (decode_utf8_ignore text_b) 100)),
    ("type", PyVal.str type_name)]

/-- `_decode_stats`: each `struct.unpack` is guarded by an exact length
check, so the fixed-offset slices below are its faithful reading. -/
def _decode_stats (payload : List Nat) : Dict :=
  if payload.length < 2 then []
  else
    let stats_type := payload.getD 1 0
    if stats_type = 0 ∧ 11 ≤ payload.length then
      [("stats_type", PyVal.str "core"),
        ("battery_mv", PyVal.int (le_from_bytes ((payload.drop 2).take 2))),
        ("uptime_secs", PyVal.int (le_from_bytes ((payload.drop 4).take 4))),
        ("errors", PyVal.int (le_from_bytes ((payload.drop 8).take 2))),
        ("queue_len", PyVal.int (payload.getD 10 0))]
    else if stats_type = 1 ∧ 14 ≤ payload.length then
      [("stats_type", PyVal.str "radio"),
        ("noise_floor", PyVal.int (le_from_bytes_signed ((payload.drop 2).take 2))),
        ("last_rssi", PyVal.int (le_from_bytes_signed ((payload.drop 4).take 1))),
        ("last_snr", PyVal.flt (le_from_bytes_signed ((payload.drop 5).take 1)) 4),
        ("tx_air_secs", PyVal.int (le_from_bytes ((payload.drop 6).take 4))),
        ("rx_air_secs", PyVal.int (le_from_bytes ((payload.drop 10).take 4)))]
    else if stats_type = 2 ∧ 26 ≤ payload.length then
      [("stats_type", PyVal.str "packets"),
        ("recv", PyVal.int (le_from_bytes ((payload.drop 2).take 4))),
        ("sent", PyVal.int (le_from_bytes ((payload.drop 6).take 4))),
        ("flood_tx", PyVal.int (le_from_bytes ((payload.drop 10).take 4))),
        ("direct_tx", PyVal.int (le_from_bytes ((payload.drop 14).take 4))),
        ("flood_rx", PyVal.int (le_from_bytes ((payload.drop 18).take 4))),
        ("direct_rx", PyVal.int (le_from_bytes ((payload.drop 22).take 4)))]
    else [("stats_type", PyVal.str ("unknown(" ++ toString stats_type ++ ")"))]

/-- The `try:` body of `decode_response`: the tag dispatch.  `Except.ok none`
is the fall-through `return None` for unknown tags; `Except.error` is an
exception reaching the `except` clause. -/
def decode_response_try (packet_type : Nat) (payload : List Nat) :
    Except Unit (Option Dict) :=
  let buf := payload.drop 1
  if packet_type = 0x00 then
    Except.ok (some (("status", PyVal.str "OK") ::
      (if payload.length = 5 then
        [("value", PyVal.int (le_from_bytes ((payload.drop 1).take 4)))]
       else [])))
  else if packet_type = 0x01 then
    Except.ok (some (("status", PyVal.str "ERROR") ::
      (if 1 < payload.length then [("error_code", PyVal.int (payload.getD 1 0))]
       else [])))
  else if packet_type = 0x02 then
    Except.ok (some [("contact_count",
      PyVal.int (le_from_bytes ((payload.drop 1).take 4)))])
  else if packet_type = 0x03 ∨ packet_type = 0x8A then do
    let d ← _decode_contact buf
    Except.ok (some d)
  else if packet_type = 0x04 then
    Except.ok (some [("lastmod", PyVal.int (le_from_bytes ((bread 4 buf).1)))])
  else if packet_type = 0x05 then do
    let d ← _decode_self_info buf
    Except.ok (some d)
  else if packet_type = 0x06 then do
    let (msg_type, buf1) ← bread1 buf
    let (ack_b, buf2) := bread 4 buf1
    let (timeout_b, _) := bread 4 buf2
    Except.ok (some [("msg_type", PyVal.int msg_type),
      ("expected_ack", PyVal.str (bytes_hex ack_b)),
      ("timeout_ms", PyVal.int (le_from_bytes timeout_b))])
  else if packet_type = 0x07 then do
    let d ← _decode_contact_msg buf
    Except.ok (some d)
  else if packet_type = 0x08 then do
    let d ← _decode_channel_msg buf
    Except.ok (some d)
  else if packet_type = 0x09 then
    Except.ok (some [("time", PyVal.int (le_from_bytes ((bread 4 buf).1)))])
  else if packet_type = 0x0A then
    Except.ok (some [("messages_available", PyVal.bool false)])
  else if packet_type = 0x0B then
    Except.ok (some [("uri",
      PyVal.str ("meshcore://" ++ bytes_hex ((breadAll buf).1)))])
  else if packet_type = 0x0C then
    let (lvl_b, buf1) := bread 2 buf
    Except.ok (some (("level_mv", PyVal.int (le_from_bytes lvl_b)) ::
      (if 3 < payload.length then
        [("used_kb", PyVal.int (le_from_bytes ((bread 4 buf1).1))),
          ("total_kb", PyVal.int (le_from_bytes ((bread 4 (bread 4 buf1).2).1)))]
       else [])))
  else if packet_type = 0x0D then do
    let d ← _decode_device_info buf payload
    Except.ok (some d)
  else if packet_type = 0x12 then do
    let d ← _decode_channel_info buf
    Except.ok (some d)
  else if packet_type = 0x80 then
    Except.ok (some [("public_key", PyVal.str (bytes_hex ((bread 32 buf).1)))])
  else if packet_type = 0x81 then
    Except.ok (some [("public_key", PyVal.str (bytes_hex ((bread 32 buf).1)))])
  else if packet_type = 0x82 then
    if 5 ≤ payload.length then
      Except.ok (some [("ack_code", PyVal.str (bytes_hex ((bread 4 buf).1)))])
    else Except.ok (some [("ack", PyVal.bool true)])
  else if packet_type = 0x83 then
    Except.ok (some [("messages_waiting", PyVal.bool true)])
  else if packet_type = 0x85 then
    if 1 < payload.length then do
      let (perms, buf1) ← bread1 buf
      Except.ok (some [("login", PyVal.str "success"),
        ("is_admin", PyVal.bool (perms &&& 1 == 1)),
        ("pubkey_prefix", PyVal.str (bytes_hex ((bread 6 buf1).1)))])
    else Except.ok (some [("login", PyVal.str "success")])
  else if packet_type = 0x86 then
    Except.ok (some [("login", PyVal.str "failed")])
  else if packet_type = 0x87 then
    Except.ok (some [("status_response", PyVal.bool true),
      ("data_len", PyVal.int ((payload.length : Int) - 1))])
  else if packet_type = 0x8B then
    let (_reserved, buf1) := bread 1 buf
    Except.ok (some [("pubkey_prefix", PyVal.str (bytes_hex ((bread 6 buf1).1))),
      ("telemetry_len", PyVal.int ((payload.length : Int) - 8))])
  else if packet_type = 0x8C then
    let (_reserved, buf1) := bread 1 buf
    let (tag_b, _) := bread 4 buf1
    Except.ok (some [("tag", PyVal.str (bytes_hex tag_b)),
      ("data_len", PyVal.int ((payload.length : Int) - 6))])
  else if packet_type = 0x18 then
    Except.ok (some (_decode_stats payload))
  else if packet_type = 0x15 then
    let raw := decode_utf8_ignore ((breadAll buf).1)
    if raw ≠ "" then
      let pairs := (raw.splitOn ",").foldl (fun acc p =>
        match p.splitOn ":" with
        | [] => acc
        | [_] => acc
        | k :: rest => str_dict_set acc k (String.intercalate ":" rest)) []
      Except.ok (some [("vars", PyVal.dict pairs)])
    else Except.ok (some [("vars", PyVal.dict [])])
  else Except.ok none

/-- `decode_response(packet_type, payload)`: the `len < 1` early return,
then the `try` body with `except Exception: pass; return None`.  The outer
`Except` layer is the function's own exception behaviour: an `Except.error`
result here would be an exception escaping `decode_response` itself. -/
def decode_response (packet_type : Nat) (payload : List Nat) :
    Except Unit (Option Dict) :=
  if payload.length < 1 then Except.ok none
  else Except.ok (match decode_response_try packet_type payload with
    | Except.ok r => r
    | Except.error _ => none)

/-- The `try:` body of `decode_command`. -/
def decode_command_try (packet_type : Nat) (payload : List Nat) :
    Except Unit (Option Dict) :=
  let buf := payload.drop 1
  if packet_type = 0x01 then
    if 3 ≤ payload.length then
      Except.ok (some [("version", PyVal.int (payload.getD 1 0)),
        ("app", PyVal.str (decode_utf8_ignore (payload.drop 2)).trim)])
    else Except.ok none
  else if packet_type = 0x02 then do
    let (msg_type, buf1) ← bread1 buf
    let (attempt, buf2) ← bread1 buf1
    let (ts_b, buf3) := bread 4 buf2
    let (dst_b, buf4) := bread 6 buf3
    let (text_b, _) := breadAll buf4
    Except.ok (some [("type",
        PyVal.str (if msg_type = 1 then "command" else "message")),
      ("attempt", PyVal.int attempt),
      ("timestamp", PyVal.int (le_from_bytes ts_b)),
      ("to", PyVal.str (bytes_hex dst_b)),
      ("text", PyVal.str (preview (decode_utf8_ignore text_b) 50))])
  else if packet_type = 0x03 then do
    let (_flags, buf1) := bread 1 buf
    let (chan, buf2) ← bread1 buf1
    let (ts_b, buf3) := bread 4 buf2
    let (text_b, _) := breadAll buf3
    Except.ok (some [("channel", PyVal.int chan),
      ("timestamp", PyVal.int (le_from_bytes ts_b)),
      ("text", PyVal.str (preview (decode_utf8_ignore text_b) 50))])
  else if packet_type = 0x04 then
    if 1 < payload.length then
      Except.ok (some [("lastmod", PyVal.int (le_from_bytes ((bread 4 buf).1)))])
    else Except.ok (some [])
  else if packet_type = 0x06 then
    Except.ok (some [("time", PyVal.int (le_from_bytes ((bread 4 buf).1)))])
  else if packet_type = 0x08 then
    Except.ok (some [("name", PyVal.str (decode_utf8_ignore ((breadAll buf).1)))])
  else if packet_type = 0x0B then do
    let (freq_b, buf1) := bread 4 buf
    let (bw_b, buf2) := bread 4 buf1
    let (sf, buf3) ← bread1 buf2
    let (cr, _) ← bread1 buf3
    Except.ok (some [("freq_mhz", PyVal.flt (le_from_bytes freq_b) 1000),
      ("bw_khz", PyVal.flt (le_from_bytes bw_b) 1000),
      ("sf", PyVal.int sf),
      ("cr", PyVal.int cr)])
  else if packet_type = 0x0C then
    Except.ok (some [("tx_power", PyVal.int (le_from_bytes ((bread 4 buf).1)))])
  else if packet_type = 0x0E then
    let (lat_b, buf1) := bread 4 buf
    let (lon_b, _) := bread 4 buf1
    Except.ok (some [("lat", PyVal.flt (le_from_bytes_signed lat_b) 1000000),
      ("lon", PyVal.flt (le_from_bytes_signed lon_b) 1000000)])
  else if packet_type = 0x16 then
    Except.ok (some [("query", PyVal.str "device_info")])
  else if packet_type = 0x1A then
    let (dst_b, buf1) := bread 32 buf
    let (_pwd_b, _) := breadAll buf1
    Except.ok (some [("to", PyVal.str (str_take (bytes_hex dst_b) 12 ++ "...")),
      ("password", PyVal.str "***")])
  else if packet_type = 0x1F then do
    let (idx, _) ← bread1 buf
    Except.ok (some [("channel_idx", PyVal.int idx)])
  else if packet_type = 0x20 then do
    let (idx, buf1) ← bread1 buf
    let (name_b, _) := bread 32 buf1
    Except.ok (some [("channel_idx", PyVal.int idx),
      ("name", PyVal.str (rstrip_nul (decode_utf8_ignore name_b)))])
  else if packet_type = 0x25 then
    Except.ok (some [("pin", PyVal.int (le_from_bytes ((bread 4 buf).1)))])
  else if packet_type = 0x27 then
    let (_reserved, buf1) := bread 3 buf
    if 4 < payload.length then
      Except.ok (some [("target", PyVal.str (bytes_hex ((bread 6 buf1).1)))])
    else Except.ok (some [("target", PyVal.str "self")])
  else if packet_type = 0x34 then
    let (_reserved, buf1) := bread 1 buf
    Except.ok (some [("target",
      PyVal.str (str_take (bytes_hex ((bread 32 buf1).1)) 12 ++ "..."))])
  else if packet_type = 0x38 then do
    let (stats_type, _) ← bread1 buf
    Except.ok (some [("stats_type", PyVal.str (match stats_type with
      | 0 => "core"
      | 1 => "radio"
      | 2 => "packets"
      | t => "unknown(" ++ toString t ++ ")"))])
  else Except.ok none

/-- `decode_command(packet_type, payload)`, wrapped as `decode_response`. -/
def decode_command (packet_type : Nat) (payload : List Nat) :
    Except Unit (Option Dict) :=
  if payload.length < 1 then Except.ok none
  else Except.ok (match decode_command_try packet_type payload with
    | Except.ok r => r
    | Except.error _ => none)

/-! ### Theorems -/

theorem parseLoop_nil (st : TCPClient) : parseLoop st [] = (st, []) := by
  rw [parseLoop]
  simp

theorem parseLoop_header (st : TCPClient) (rem : List Nat) (h1 : rem ≠ [])
    (h2 : st.frame_started = false) (h3 : 3 - st.header.length ≤ rem.length) :
    parseLoop st rem =
      parseLoop
        ⟨true, le_from_bytes ((st.header ++ rem.take (3 - st.header.length)).drop 1),
          st.header ++ rem.take (3 - st.header.length), st.inframe⟩
        (rem.drop (3 - st.header.length)) := by
  conv_lhs => rw [parseLoop]
  simp [h1, h2, h3]

theorem parseLoop_header_more (st : TCPClient) (rem : List Nat) (h1 : rem ≠ [])
    (h2 : st.frame_started = false) (h3 : rem.length < 3 - st.header.length) :
    parseLoop st rem = ({ st with header := st.header ++ rem }, []) := by
  conv_lhs => rw [parseLoop]
  simp [h1, h2, Nat.not_le.mpr h3]

theorem parseLoop_frame (st : TCPClient) (rem : List Nat) (h1 : rem ≠ [])
    (h2 : st.frame_started = true) (h3 : st.frame_size - st.inframe.length ≤ rem.length) :
    parseLoop st rem =
      ((parseLoop ⟨false, st.frame_size, [], []⟩
          (rem.drop (st.frame_size - st.inframe.length))).1,
        (st.inframe ++ rem.take (st.frame_size - st.inframe.length)) ::
          (parseLoop ⟨false, st.frame_size, [], []⟩
            (rem.drop (st.frame_size - st.inframe.length))).2) := by
  conv_lhs => rw [parseLoop]
  simp [h1, h2, h3]

theorem parseLoop_frame_more (st : TCPClient) (rem : List Nat) (h1 : rem ≠ [])
    (h2 : st.frame_started = true) (h3 : rem.length < st.frame_size - st.inframe.length) :
    parseLoop st rem = ({ st with inframe := st.inframe ++ rem }, []) := by
  conv_lhs => rw [parseLoop]
  simp [h1, h2, Nat.not_le.mpr h3]

/-- `parseLoop` is a stream processor: parsing `a ++ b` in one call gives the
same state and payloads as parsing `a` and then feeding `b` to the resulting
state.  This is the chunk-boundary-independence core of the frame codec. -/
theorem parseLoop_append (st : TCPClient) (a : List Nat) :
    ∀ b : List Nat,
      parseLoop st (a ++ b) =
        ((parseLoop (parseLoop st a).1 b).1,
          (parseLoop st a).2 ++ (parseLoop (parseLoop st a).1 b).2) := by
  induction st, a using parseLoop.induct with
  | case1 st =>
      intro b
      simp [parseLoop_nil]
  | case2 st a h1 h2 h3 hd1 ih =>
      intro b
      have hab : a ++ b ≠ [] := fun hc => h1 (List.append_eq_nil.mp hc).1
      have hn : 3 - st.header.length ≤ (a ++ b).length := by
        rw [List.length_append]; omega
      have htake : (a ++ b).take (3 - st.header.length)
          = a.take (3 - st.header.length) := by
        rw [List.take_append_eq_append_take, Nat.sub_eq_zero_of_le h3, List.take_zero,
          List.append_nil]
      have hdrop : (a ++ b).drop (3 - st.header.length)
          = a.drop (3 - st.header.length) ++ b := by
        rw [List.drop_append_eq_append_drop, Nat.sub_eq_zero_of_le h3, List.drop_zero]
      rw [parseLoop_header st (a ++ b) hab h2 hn, parseLoop_header st a h1 h2 h3,
        htake, hdrop]
      exact ih b
  | case3 st a h1 h2 h3 =>
      intro b
      rw [parseLoop_header_more st a h1 h2 (by omega)]
      rcases eq_or_ne b [] with rfl | hb
      · rw [List.append_nil, parseLoop_nil,
          parseLoop_header_more st a h1 h2 (by omega)]
        simp
      · have hab : a ++ b ≠ [] := fun hc => hb (List.append_eq_nil.mp hc).2
        have hl3 : a.length ≤ 3 - st.header.length := by omega
        by_cases hn : 3 - st.header.length ≤ (a ++ b).length
        · have hn' : 3 - ({ st with header := st.header ++ a } : TCPClient).header.length
              ≤ b.length := by
            show 3 - (st.header ++ a).length ≤ b.length
            rw [List.length_append]
            rw [List.length_append] at hn
            omega
          have harith : 3 - st.header.length - a.length
              = 3 - (st.header.length + a.length) := by omega
          have htake : (a ++ b).take (3 - st.header.length)
              = a ++ b.take (3 - (st.header.length + a.length)) := by
            rw [List.take_append_eq_append_take, List.take_of_length_le hl3, harith]
          have hdrop : (a ++ b).drop (3 - st.header.length)
              = b.drop (3 - (st.header.length + a.length)) := by
            rw [List.drop_append_eq_append_drop, List.drop_eq_nil_of_le hl3,
              List.nil_append, harith]
          rw [parseLoop_header st (a ++ b) hab h2 hn,
            parseLoop_header _ b hb (by simpa using h2) hn',
            htake, hdrop]
          simp [List.append_assoc, List.length_append]
        · have hn' : b.length
              < 3 - ({ st with header := st.header ++ a } : TCPClient).header.length := by
            show b.length < 3 - (st.header ++ a).length
            rw [List.length_append]
            rw [List.length_append] at hn
            omega
          rw [parseLoop_header_more st (a ++ b) hab h2
              (by rw [List.length_append] at hn ⊢; omega),
            parseLoop_header_more _ b hb (by simpa using h2) hn']
          simp [List.append_assoc]
  | case4 st a h1 h2 h3 ih =>
      intro b
      have h2' : st.frame_started = true := by simpa using h2
      have hab : a ++ b ≠ [] := fun hc => h1 (List.append_eq_nil.mp hc).1
      have hn : st.frame_size - st.inframe.length ≤ (a ++ b).length := by
        rw [List.length_append]; omega
      have htake : (a ++ b).take (st.frame_size - st.inframe.length)
          = a.take (st.frame_size - st.inframe.length) := by
        rw [List.take_append_eq_append_take, Nat.sub_eq_zero_of_le h3, List.take_zero,
          List.append_nil]
      have hdrop : (a ++ b).drop (st.frame_size - st.inframe.length)
          = a.drop (st.frame_size - st.inframe.length) ++ b := by
        rw [List.drop_append_eq_append_drop, Nat.sub_eq_zero_of_le h3, List.drop_zero]
      rw [parseLoop_frame st (a ++ b) hab h2' hn, parseLoop_frame st a h1 h2' h3,
        htake, hdrop, ih b]
      simp
  | case5 st a h1 h2 h3 =>
      intro b
      have h2' : st.frame_started = true := by simpa using h2
      rw [parseLoop_frame_more st a h1 h2' (by omega)]
      rcases eq_or_ne b [] with rfl | hb
      · rw [List.append_nil, parseLoop_nil,
          parseLoop_frame_more st a h1 h2' (by omega)]
        simp
      · have hab : a ++ b ≠ [] := fun hc => hb (List.append_eq_nil.mp hc).2
        have hlf : a.length ≤ st.frame_size - st.inframe.length := by omega
        by_cases hn : st.frame_size - st.inframe.length ≤ (a ++ b).length
        · have hn' : ({ st with inframe := st.inframe ++ a } : TCPClient).frame_size
              - ({ st with inframe := st.inframe ++ a } : TCPClient).inframe.length
              ≤ b.length := by
            show st.frame_size - (st.inframe ++ a).length ≤ b.length
            rw [List.length_append]
            rw [List.length_append] at hn
            omega
          have harith : st.frame_size - st.inframe.length - a.length
              = st.frame_size - (st.inframe.length + a.length) := by omega
          have htake : (a ++ b).take (st.frame_size - st.inframe.length)
              = a ++ b.take (st.frame_size - (st.inframe.length + a.length)) := by
            rw [List.take_append_eq_append_take, List.take_of_length_le hlf, harith]
          have hdrop : (a ++ b).drop (st.frame_size - st.inframe.length)
              = b.drop (st.frame_size - (st.inframe.length + a.length)) := by
            rw [List.drop_append_eq_append_drop, List.drop_eq_nil_of_le hlf,
              List.nil_append, harith]
          rw [parseLoop_frame st (a ++ b) hab h2' hn,
            parseLoop_frame _ b hb (by simpa using h2') hn',
            htake, hdrop]
          simp [List.append_assoc, List.length_append]
        · have hn' : b.length
              < ({ st with inframe := st.inframe ++ a } : TCPClient).frame_size
                - ({ st with inframe := st.inframe ++ a } : TCPClient).inframe.length := by
            show b.length < st.frame_size - (st.inframe ++ a).length
            rw [List.length_append]
            rw [List.length_append] at hn
            omega
          rw [parseLoop_frame_more st (a ++ b) hab h2'
              (by rw [List.length_append] at hn ⊢; omega),
            parseLoop_frame_more _ b hb (by simpa using h2') hn']
          simp [List.append_assoc]

/-- Feeding chunks one at a time is the same as parsing their concatenation. -/
theorem feedChunks_eq (st : TCPClient) (chunks : List (List Nat)) :
    feedChunks st chunks = parseLoop st chunks.flatten := by
  induction chunks generalizing st with
  | nil => simp [feedChunks, parseLoop_nil]
  | cons c cs ih =>
    simp only [feedChunks, _parse_tcp_frame, List.flatten_cons]
    rw [parseLoop_append st c cs.flatten, ih]

/-- Parsing one encoded frame from a clean state emits exactly its payload
and continues on the rest of the stream, provided at least one byte follows
the frame header (`p ++ rest ≠ []`). -/
theorem parseLoop_frame_payload (fs0 : Nat) (p rest : List Nat)
    (hne : p ++ rest ≠ []) :
    parseLoop ⟨false, fs0, [], []⟩ (_frame_payload p ++ rest) =
      ((parseLoop ⟨false, p.length, [], []⟩ rest).1,
        p :: (parseLoop ⟨false, p.length, [], []⟩ rest).2) := by
  have hform : _frame_payload p ++ rest
      = 60 :: p.length % 256 :: p.length / 256 :: (p ++ rest) := by
    simp [_frame_payload, to_bytes_le2]
  have hsz : le_from_bytes [p.length % 256, p.length / 256] = p.length := by
    simp [le_from_bytes]
    exact Nat.mod_add_div _ _
  rw [hform]
  rw [parseLoop_header _ _ (by simp) rfl (by simp)]
  simp only [List.nil_append, List.take_succ_cons, List.take_zero, List.drop_succ_cons,
    List.drop_zero, List.length_nil, Nat.sub_zero, List.take, List.drop]
  rw [hsz]
  rw [parseLoop_frame _ _ hne rfl (by simp)]
  simp [List.take_left, List.drop_left]

/-- Parsing the whole encoded stream of a payload list from a clean state
yields exactly the payloads, provided the final payload is non-empty. -/
theorem parseLoop_encodeAll (P : List (List Nat)) :
    ∀ fs0 : Nat, P.getLast? ≠ some [] →
      ∃ fs1, parseLoop ⟨false, fs0, [], []⟩ (encodeAll P) = (⟨false, fs1, [], []⟩, P) := by
  induction P with
  | nil =>
    intro fs0 _
    exact ⟨fs0, by simp [encodeAll, parseLoop_nil]⟩
  | cons p P ih =>
    intro fs0 hlast
    have henc : encodeAll (p :: P) = _frame_payload p ++ encodeAll P := by
      simp [encodeAll]
    have hne : p ++ encodeAll P ≠ [] := by
      rcases eq_or_ne P [] with rfl | hP
      · have hp : p ≠ [] := by simpa using hlast
        simp [encodeAll, hp]
      · obtain ⟨q, Q, rfl⟩ := List.exists_cons_of_ne_nil hP
        simp [encodeAll, _frame_payload]
    have hlast' : P.getLast? ≠ some [] := by
      rcases eq_or_ne P [] with rfl | hP
      · simp
      · obtain ⟨q, Q, rfl⟩ := List.exists_cons_of_ne_nil hP
        rw [List.getLast?_cons_cons] at hlast
        exact hlast
    obtain ⟨fs1, h⟩ := ih p.length hlast'
    exact ⟨fs1, by rw [henc, parseLoop_frame_payload fs0 p _ hne, h]⟩

/-- Evaluation helper: a fresh session that has consumed exactly the header
of a zero-length frame holds the frame open and has emitted nothing. -/
theorem parseLoop_zero_len_header :
    parseLoop freshTCPClient [60, 0, 0]
      = ((⟨true, 0, [60, 0, 0], []⟩ : TCPClient), []) := by
  rw [parseLoop_header freshTCPClient [60, 0, 0] (by simp)
    rfl (by simp [freshTCPClient])]
  simp [freshTCPClient, le_from_bytes, parseLoop_nil]

/-- C1: the claim as frozen fails at the payload list `P = [b""]` delivered
as the single chunk `encode(b"") = [0x3c, 0x00, 0x00]`: the parser consumes
the 3-byte header, leaves the zero-length frame pending (the `while offset <
len(data)` loop exits before a zero-byte payload can complete), and emits
no payload at all instead of `[b""]`. -/
theorem frame_codec_trailing_empty_frame_lost :
    [_frame_payload []].flatten = encodeAll [[]]
    ∧ (feedChunks freshTCPClient [_frame_payload []]).2 = []
    ∧ (feedChunks freshTCPClient [_frame_payload []]).2 ≠ [([] : List Nat)] := by
  have h : _frame_payload [] = [60, 0, 0] := rfl
  refine ⟨rfl, ?_, ?_⟩ <;>
    simp [h, feedChunks, _parse_tcp_frame, parseLoop_zero_len_header]

/-- C1 (amended): for every payload list whose final payload is non-empty
(each payload at most 65535 bytes, per the data model) and every partition
of the concatenated encodings into chunks, feeding the chunks in order to a
fresh session yields exactly the payloads in order, wherever the chunk
boundaries fall.  (A trailing zero-length frame stays pending until a later
byte arrives, which is the only amendment to the frozen claim.) -/
theorem frame_codec_chunk_invariant (P chunks : List (List Nat))
    (hlen : ∀ p ∈ P, p.length ≤ 65535)
    (hlast : P.getLast? ≠ some [])
    (hchunks : chunks.flatten = encodeAll P) :
    (feedChunks freshTCPClient chunks).2 = P := by
  rw [feedChunks_eq, hchunks]
  obtain ⟨fs1, h⟩ := parseLoop_encodeAll P 0 hlast
  rw [show freshTCPClient = (⟨false, 0, [], []⟩ : TCPClient) from rfl, h]

/-- Witness for C1 (amended): `P = [[1,2],[3]]` delivered as three chunks
whose boundaries fall inside the first header and inside the stream. -/
theorem frame_codec_chunk_invariant_witness :
    (feedChunks freshTCPClient [[60, 2], [0, 1], [2, 60, 1, 0, 3]]).2
      = [[1, 2], [3]] :=
  frame_codec_chunk_invariant [[1, 2], [3]] [[60, 2], [0, 1], [2, 60, 1, 0, 3]]
    (by decide) (by decide) (by decide)

/-- C2: the claim as frozen fails at the empty payload: decoding
`encode(b"")` with a fresh session yields no payload (the zero-length frame
stays pending), not `[b""]`. -/
theorem encode_decode_empty_payload_lost :
    (_parse_tcp_frame freshTCPClient (_frame_payload [])).2 = []
    ∧ (_parse_tcp_frame freshTCPClient (_frame_payload [])).2 ≠ [([] : List Nat)] := by
  have h : _frame_payload [] = [60, 0, 0] := rfl
  rw [h]
  refine ⟨?_, ?_⟩ <;> simp [_parse_tcp_frame, parseLoop_zero_len_header]

/-- C2 (amended): decoding `encode(P)` in one call on a fresh session yields
exactly `[P]` for every payload with `1 ≤ len(P) ≤ 65535`; the identity
fails only for `len(P) = 0`, where the zero-length frame stays pending. -/
theorem encode_decode_roundtrip (p : List Nat) (h1 : 1 ≤ p.length)
    (h2 : p.length ≤ 65535) :
    (_parse_tcp_frame freshTCPClient (_frame_payload p)).2 = [p] := by
  have hne : p ++ ([] : List Nat) ≠ [] := by
    simp only [List.append_nil]
    intro hc
    rw [hc] at h1
    simp at h1
  have h := parseLoop_frame_payload 0 p [] hne
  rw [List.append_nil] at h
  rw [_parse_tcp_frame, show freshTCPClient = (⟨false, 0, [], []⟩ : TCPClient) from rfl,
    h, parseLoop_nil]

/-- Witness for C2 (amended) at the one-byte payload `[42]`. -/
theorem encode_decode_roundtrip_witness :
    (_parse_tcp_frame freshTCPClient (_frame_payload [42])).2 = [[42]] :=
  encode_decode_roundtrip [42] (by decide) (by decide)

/-- While a frame body is being accumulated the stored header bytes are
never read again: two started states differing only in `header` emit the
same payloads. -/
theorem parseLoop_header_bytes_unread (fs : Nat) (hd1 hd2 inf a : List Nat) :
    (parseLoop ⟨true, fs, hd1, inf⟩ a).2 = (parseLoop ⟨true, fs, hd2, inf⟩ a).2 := by
  rcases eq_or_ne a [] with rfl | ha
  · simp [parseLoop_nil]
  · by_cases hf : fs - inf.length ≤ a.length
    · rw [parseLoop_frame ⟨true, fs, hd1, inf⟩ a ha rfl hf,
        parseLoop_frame ⟨true, fs, hd2, inf⟩ a ha rfl hf]
    · rw [parseLoop_frame_more ⟨true, fs, hd1, inf⟩ a ha rfl (Nat.not_le.mp hf),
        parseLoop_frame_more ⟨true, fs, hd2, inf⟩ a ha rfl (Nat.not_le.mp hf)]

/-- C9: `_parse_tcp_frame` never inspects the sync byte: from a fresh
session, a stream starting with any byte `s` in place of `0x3c` emits
exactly the same payloads, and the declared frame length is read from
header bytes 2..3 as a little-endian unsigned 16-bit value. -/
theorem sync_byte_ignored (s l1 l2 : Nat) (rest : List Nat)
    (hb1 : l1 < 256) (hb2 : l2 < 256) :
    (parseLoop freshTCPClient (s :: l1 :: l2 :: rest)).2
      = (parseLoop freshTCPClient (0x3c :: l1 :: l2 :: rest)).2
    ∧ (parseLoop freshTCPClient [s, l1, l2]).1.frame_size = l1 + 256 * l2 := by
  constructor
  · rw [parseLoop_header freshTCPClient (s :: l1 :: l2 :: rest) (by simp)
      rfl (by simp [freshTCPClient]),
      parseLoop_header freshTCPClient (60 :: l1 :: l2 :: rest) (by simp)
      rfl (by simp [freshTCPClient])]
    simp only [freshTCPClient, List.length_nil, Nat.sub_zero, List.nil_append,
      List.take_succ_cons, List.take_zero, List.drop_succ_cons, List.drop_zero,
      List.drop_one, List.tail_cons]
    exact parseLoop_header_bytes_unread _ [s, l1, l2] [60, l1, l2] [] rest
  · rw [parseLoop_header freshTCPClient [s, l1, l2] (by simp)
      rfl (by simp [freshTCPClient])]
    simp [freshTCPClient, le_from_bytes, parseLoop_nil]

/-- Witness for C9 at a stream whose sync byte is `0x00`. -/
theorem sync_byte_ignored_witness :
    (parseLoop freshTCPClient (0 :: 2 :: 0 :: [7, 8])).2
        = (parseLoop freshTCPClient (0x3c :: 2 :: 0 :: [7, 8])).2
      ∧ (parseLoop freshTCPClient [0, 2, 0]).1.frame_size = 2 + 256 * 0 :=
  sync_byte_ignored 0 2 0 [7, 8] (by decide) (by decide)

theorem any_key_iff (m : Registry) (a : Nat) :
    (m.any (fun c => c.1 == a)) = true ↔ a ∈ keys m := by
  simp [keys, List.any_eq_true, List.mem_map]

theorem keys_eraseP_not_mem (m : Registry) (a : Nat)
    (hnodup : (keys m).Nodup) : a ∉ keys (m.eraseP (fun c => c.1 == a)) := by
  induction m with
  | nil => simp [keys]
  | cons c m ih =>
    rw [List.eraseP_cons]
    simp only [keys, List.map_cons, List.nodup_cons] at hnodup
    by_cases hc : c.1 = a
    · rw [show (c.1 == a) = true from beq_iff_eq.mpr hc, cond_true]
      intro hmem
      apply hnodup.1
      rw [hc]
      simpa [keys] using hmem
    · rw [show (c.1 == a) = false by simp [hc], cond_false]
      simp only [keys, List.map_cons, List.mem_cons]
      rintro (h | h)
      · exact hc h.symm
      · exact ih hnodup.2 (by simpa [keys] using h)

theorem keys_remove_subset (m : Registry) (b : Nat) {a : Nat}
    (h : a ∈ keys (_remove_client m b).1) : a ∈ keys m := by
  unfold _remove_client at h
  split at h
  · exact (List.Sublist.map Prod.fst (List.eraseP_sublist m)).mem h
  · exact h

theorem mem_keys_eraseP_of_ne (m : Registry) (b : Nat) {a : Nat}
    (ha : a ∈ keys m) (hab : a ≠ b) :
    a ∈ keys (m.eraseP (fun c => c.1 == b)) := by
  induction m with
  | nil => simpa [keys] using ha
  | cons c m ih =>
    rw [List.eraseP_cons]
    by_cases hc : c.1 = b
    · rw [show (c.1 == b) = true from beq_iff_eq.mpr hc, cond_true]
      rcases (by simpa [keys] using ha : a = c.1 ∨ a ∈ keys m) with rfl | h
      · exact absurd hc hab
      · simpa [keys] using h
    · rw [show (c.1 == b) = false by simp [hc], cond_false]
      simp only [keys, List.map_cons, List.mem_cons]
      rcases (by simpa [keys] using ha : a = c.1 ∨ a ∈ keys m) with rfl | h
      · exact Or.inl rfl
      · exact Or.inr (by simpa [keys] using ih h)

theorem keys_remove_of_ne (m : Registry) (b : Nat) {a : Nat}
    (ha : a ∈ keys m) (hab : a ≠ b) : a ∈ keys (_remove_client m b).1 := by
  unfold _remove_client
  split
  · exact mem_keys_eraseP_of_ne m b ha hab
  · exact ha

theorem nodup_keys_remove (m : Registry) (b : Nat)
    (hnodup : (keys m).Nodup) : (keys (_remove_client m b).1).Nodup := by
  unfold _remove_client
  split
  · exact (List.Sublist.map Prod.fst (List.eraseP_sublist m)).nodup hnodup
  · exact hnodup

theorem remove_self_not_mem (m : Registry) (a : Nat)
    (hnodup : (keys m).Nodup) : a ∉ keys (_remove_client m a).1 := by
  unfold _remove_client
  split
  · exact keys_eraseP_not_mem m a hnodup
  · rename_i h
    rw [any_key_iff] at h
    simpa using h

/-- C7: eviction is idempotent.  Evicting a key absent from the registry
leaves the registry unchanged and attempts no socket close, and evicting
the same key twice leaves the same registry as evicting it once. -/
theorem remove_client_idempotent (clients : Registry) (addr : Nat)
    (hnodup : (keys clients).Nodup) :
    (addr ∉ keys clients → _remove_client clients addr = (clients, false))
    ∧ (_remove_client (_remove_client clients addr).1 addr).1
        = (_remove_client clients addr).1 := by
  constructor
  · intro hab
    unfold _remove_client
    rw [if_neg]
    intro h
    exact hab ((any_key_iff clients addr).mp h)
  · have habs : addr ∉ keys (_remove_client clients addr).1 :=
      remove_self_not_mem clients addr hnodup
    unfold _remove_client
    rw [if_neg]
    intro h
    exact habs ((any_key_iff _ addr).mp h)

/-- Witness for C7: an absent key (7) is a no-op with no close, and a
double eviction of a present key (5) equals a single eviction. -/
theorem remove_client_idempotent_witness :
    _remove_client [(5, freshTCPClient)] 7 = ([(5, freshTCPClient)], false)
    ∧ (_remove_client (_remove_client [(5, freshTCPClient)] 5).1 5).1
        = (_remove_client [(5, freshTCPClient)] 5).1 :=
  ⟨(remove_client_idempotent [(5, freshTCPClient)] 7 (by decide)).1 (by decide),
    (remove_client_idempotent [(5, freshTCPClient)] 5 (by decide)).2⟩

theorem broadcast_loop_spec (writeOk : Nat → Bool) (framed : List Nat)
    (clients : Registry) :
    ∀ acc, clients.foldl (broadcast_step writeOk framed) acc
      = (acc.1 ++ (clients.filter (fun c => writeOk c.1)).map
            (fun c => (c.1, framed)),
         acc.2 ++ (clients.filter (fun c => !writeOk c.1)).map Prod.fst) := by
  induction clients with
  | nil => simp
  | cons c m ih =>
    intro acc
    rw [List.foldl_cons, ih]
    by_cases hc : writeOk c.1
    · simp [broadcast_step, hc]
    · simp [broadcast_step, hc]

theorem foldl_remove_mono (L : List Nat) :
    ∀ (m : Registry) {a : Nat},
      a ∈ keys (L.foldl (fun m b => (_remove_client m b).1) m) → a ∈ keys m := by
  induction L with
  | nil => intro m a h; exact h
  | cons b L ih =>
    intro m a h
    exact keys_remove_subset m b (ih _ h)

theorem foldl_remove_nodup (L : List Nat) :
    ∀ (m : Registry), (keys m).Nodup →
      (keys (L.foldl (fun m b => (_remove_client m b).1) m)).Nodup := by
  induction L with
  | nil => intro m h; exact h
  | cons b L ih => intro m h; exact ih _ (nodup_keys_remove m b h)

theorem foldl_remove_not_mem (L : List Nat) :
    ∀ (m : Registry) {a : Nat}, (keys m).Nodup → a ∈ L →
      a ∉ keys (L.foldl (fun m b => (_remove_client m b).1) m) := by
  induction L with
  | nil => intro m a _ h; simp at h
  | cons b L ih =>
    intro m a hnodup hmem
    rcases List.mem_cons.mp hmem with rfl | hL
    · rw [List.foldl_cons]
      intro hcon
      exact remove_self_not_mem m a hnodup (foldl_remove_mono L _ hcon)
    · exact ih _ (nodup_keys_remove m b hnodup) hL

theorem foldl_remove_keep (L : List Nat) :
    ∀ (m : Registry) {a : Nat}, a ∈ keys m → (∀ b ∈ L, a ≠ b) →
      a ∈ keys (L.foldl (fun m b => (_remove_client m b).1) m) := by
  induction L with
  | nil => intro m a h _; exact h
  | cons b L ih =>
    intro m a ha hne
    rw [List.foldl_cons]
    exact ih _ (keys_remove_of_ne m b ha (hne b (by simp)))
      (fun c hc => hne c (by simp [hc]))

/-- C6: broadcasting a non-empty radio payload delivers the framed bytes to
every session whose write succeeds, evicts exactly the sessions whose write
fails, and a failing session never interrupts delivery to the others. -/
theorem broadcast_isolates_write_failures (writeOk : Nat → Bool)
    (clients : Registry) (payload : List Nat) (hp : payload ≠ [])
    (hnodup : (keys clients).Nodup) :
    (∀ c ∈ clients, writeOk c.1 = true →
        (c.1, _frame_payload payload) ∈ (_handle_radio_rx writeOk clients payload).2.1)
    ∧ (∀ c ∈ clients, writeOk c.1 = false →
        c.1 ∉ keys (_handle_radio_rx writeOk clients payload).1)
    ∧ (∀ c ∈ clients, writeOk c.1 = true →
        c.1 ∈ keys (_handle_radio_rx writeOk clients payload).1) := by
  have hlen : ¬payload.length = 0 := by
    simpa [List.length_eq_zero] using hp
  unfold _handle_radio_rx
  rw [if_neg hlen]
  simp only [broadcast_loop_spec, List.nil_append]
  refine ⟨?_, ?_, ?_⟩
  · intro c hc hw
    simp only [List.mem_map, List.mem_filter]
    exact ⟨c, ⟨hc, hw⟩, rfl⟩
  · intro c hc hw
    refine foldl_remove_not_mem _ clients hnodup ?_
    simp only [List.mem_map, List.mem_filter]
    exact ⟨c, ⟨hc, by simp [hw]⟩, rfl⟩
  · intro c hc hw
    refine foldl_remove_keep _ clients (List.mem_map_of_mem Prod.fst hc) ?_
    intro b hb
    simp only [List.mem_map, List.mem_filter] at hb
    obtain ⟨d, ⟨_, hd⟩, rfl⟩ := hb
    intro hcd
    rw [hcd] at hw
    simp [hw] at hd

/-- Witness for C6: two registered sessions, the write to key 1 fails:
key 0 still receives the framed payload, key 1 is evicted, key 0 remains. -/
theorem broadcast_isolates_write_failures_witness :
    ((0 : Nat), _frame_payload [9]) ∈ (_handle_radio_rx (fun a => a == 0)
        [(0, freshTCPClient), (1, freshTCPClient)] [9]).2.1
    ∧ (1 : Nat) ∉ keys (_handle_radio_rx (fun a => a == 0)
        [(0, freshTCPClient), (1, freshTCPClient)] [9]).1
    ∧ (0 : Nat) ∈ keys (_handle_radio_rx (fun a => a == 0)
        [(0, freshTCPClient), (1, freshTCPClient)] [9]).1 := by
  have h := broadcast_isolates_write_failures (fun a => a == 0)
    [(0, freshTCPClient), (1, freshTCPClient)] [9] (by decide) (by decide)
  exact ⟨h.1 (0, freshTCPClient) (by simp) rfl,
    h.2.1 (1, freshTCPClient) (by simp) rfl,
    h.2.2 (0, freshTCPClient) (by simp) rfl⟩

/-- C10: a zero-length inbound radio payload is silently discarded:
`_handle_radio_rx` returns before logging, broadcasts nothing, and leaves
the session registry unchanged. -/
theorem empty_radio_payload_discarded (writeOk : Nat → Bool)
    (clients : Registry) :
    _handle_radio_rx writeOk clients [] = (clients, [], none) := rfl

theorem keys_dict_set (m : Registry) (addr : Nat) (cl : TCPClient) :
    keys (dict_set m addr cl)
      = if (m.any (fun c => c.1 == addr)) then keys m else keys m ++ [addr] := by
  unfold dict_set
  split
  · simp only [keys, List.map_map]
    congr 1
    funext c
    by_cases hc : c.1 = addr
    · simp [hc]
    · simp [hc]
  · simp [keys]

theorem mem_keys_dict_set (m : Registry) (addr : Nat) (cl : TCPClient) :
    addr ∈ keys (dict_set m addr cl) := by
  rw [keys_dict_set]
  split
  · rename_i h
    exact (any_key_iff m addr).mp h
  · simp

theorem nodup_keys_dict_set (m : Registry) (addr : Nat) (cl : TCPClient)
    (hnodup : (keys m).Nodup) : (keys (dict_set m addr cl)).Nodup := by
  rw [keys_dict_set]
  split
  · exact hnodup
  · rename_i h
    have : addr ∉ keys m := fun hc => h ((any_key_iff m addr).mpr hc)
    simp [List.nodup_append, hnodup, this]

theorem sendPayloads_no_raise (radioConn : Bool) (sendRaises : List Nat → Bool)
    (hs : radioConn = false ∨ ∀ p, sendRaises p = false) :
    ∀ ps, sendPayloads radioConn sendRaises ps = false := by
  intro ps
  induction ps with
  | nil => rfl
  | cons p ps ih =>
    rcases hs with rfl | hs
    · simpa [sendPayloads, _send_to_radio] using ih
    · cases radioConn <;> simp [sendPayloads, _send_to_radio, hs p, ih]

theorem clientLoop_healthy_prefix (radioConn : Bool) (sendRaises : List Nat → Bool)
    (hs : radioConn = false ∨ ∀ p, sendRaises p = false) :
    ∀ (good : List (Option (List Nat))),
      (∀ e ∈ good, ∃ d, e = some d ∧ d ≠ []) →
      ∀ (cl : TCPClient) (rest : List (Option (List Nat))),
        ∃ cl', clientLoop radioConn sendRaises cl (good ++ rest)
          = clientLoop radioConn sendRaises cl' rest := by
  intro good
  induction good with
  | nil => exact fun _ cl rest => ⟨cl, rfl⟩
  | cons e good ih =>
    intro hg cl rest
    obtain ⟨d, rfl, hd⟩ := hg e (by simp)
    obtain ⟨b, bs, rfl⟩ := List.exists_cons_of_ne_nil hd
    rw [List.cons_append]
    rw [show clientLoop radioConn sendRaises cl (some (b :: bs) :: (good ++ rest))
        = clientLoop radioConn sendRaises
            (_parse_tcp_frame cl (b :: bs)).1 (good ++ rest) by
      simp [clientLoop, sendPayloads_no_raise radioConn sendRaises hs]]
    exact ih (fun e he => hg e (by simp [he])) _ rest

/-- C5 (amended): while the radio connection object is absent (sends are
logged as "Radio not connected") or the transport send never raises, a
client session is never evicted by its radio sends — it stays registered
through any sequence of successful reads; an EOF read or a read error,
wherever it occurs after a healthy prefix, terminates the handler and
evicts the session.  (The frozen claim's "a Send failure never evicts" is
false when the transport send raises: see the counterexample.) -/
theorem client_session_eviction_conditions (radioConn : Bool)
    (sendRaises : List Nat → Bool) (clients : Registry) (addr : Nat)
    (hnodup : (keys clients).Nodup)
    (hs : radioConn = false ∨ ∀ p, sendRaises p = false) :
    (∀ events, (∀ e ∈ events, ∃ d, e = some d ∧ d ≠ []) →
        addr ∈ keys (_handle_tcp_client radioConn sendRaises clients addr events))
    ∧ (∀ good tail, (∀ e ∈ good, ∃ d, e = some d ∧ d ≠ []) →
        addr ∉ keys (_handle_tcp_client radioConn sendRaises clients addr
          (good ++ some [] :: tail)))
    ∧ (∀ good tail, (∀ e ∈ good, ∃ d, e = some d ∧ d ≠ []) →
        addr ∉ keys (_handle_tcp_client radioConn sendRaises clients addr
          (good ++ none :: tail))) := by
  refine ⟨?_, ?_, ?_⟩
  · intro events hg
    obtain ⟨cl', h⟩ := clientLoop_healthy_prefix radioConn sendRaises hs events hg
      freshTCPClient []
    rw [List.append_nil] at h
    unfold _handle_tcp_client
    rw [h]
    simpa [clientLoop] using mem_keys_dict_set clients addr cl'
  · intro good tail hg
    obtain ⟨cl', h⟩ := clientLoop_healthy_prefix radioConn sendRaises hs good hg
      freshTCPClient (some [] :: tail)
    unfold _handle_tcp_client
    rw [h]
    simpa [clientLoop] using
      remove_self_not_mem (dict_set clients addr cl') addr
        (nodup_keys_dict_set clients addr cl' hnodup)
  · intro good tail hg
    obtain ⟨cl', h⟩ := clientLoop_healthy_prefix radioConn sendRaises hs good hg
      freshTCPClient (none :: tail)
    unfold _handle_tcp_client
    rw [h]
    simpa [clientLoop] using
      remove_self_not_mem (dict_set clients addr cl') addr
        (nodup_keys_dict_set clients addr cl' hnodup)

/-- Witness for C5 (amended): with no radio connection object, a full frame
is read and its send fails (logged), yet the session stays registered;
an immediate EOF or read error evicts it. -/
theorem client_session_eviction_conditions_witness :
    (0 : Nat) ∈ keys (_handle_tcp_client false (fun _ => false) [] 0
        [some (_frame_payload [7])])
    ∧ (0 : Nat) ∉ keys (_handle_tcp_client false (fun _ => false) [] 0
        [some []])
    ∧ (0 : Nat) ∉ keys (_handle_tcp_client false (fun _ => false) [] 0
        [none]) := by
  have h := client_session_eviction_conditions false (fun _ => false) [] 0
    (by simp [keys]) (Or.inl rfl)
  refine ⟨h.1 [some (_frame_payload [7])] ?_, h.2.1 [] [] (by simp), h.2.2 [] [] (by simp)⟩
  intro e he
  simp only [List.mem_singleton] at he
  exact ⟨_frame_payload [7], he, by decide⟩

/-- C5: the frozen claim fails when the transport send raises: a client
whose completed frame triggers a raising radio `send` is closed and
evicted (the exception escapes `_send_to_radio`, reaches the handler's
`except`/`finally`, and `_remove_client` runs), even though no read error
or EOF occurred on its socket. -/
theorem send_exception_evicts_client :
    _handle_tcp_client true (fun _ => true) [] 0 [some (_frame_payload [7])] = []
    ∧ (0 : Nat) ∉ keys (_handle_tcp_client true (fun _ => true) [] 0
        [some (_frame_payload [7])]) := by
  have hp : _parse_tcp_frame freshTCPClient [60, 1, 0, 7]
      = ((⟨false, 1, [], []⟩ : TCPClient), [[7]]) := by
    have h := parseLoop_frame_payload 0 [7] [] (by simp)
    rw [List.append_nil] at h
    rw [_parse_tcp_frame,
      show freshTCPClient = (⟨false, 0, [], []⟩ : TCPClient) from rfl,
      show ([60, 1, 0, 7] : List Nat) = _frame_payload [7] from rfl, h, parseLoop_nil]
    rfl
  have he : _frame_payload [7] = [60, 1, 0, 7] := rfl
  rw [he]
  constructor
  · simp [_handle_tcp_client, clientLoop, hp, sendPayloads, _send_to_radio,
      dict_set, _remove_client, keys]
  · simp [_handle_tcp_client, clientLoop, hp, sendPayloads, _send_to_radio,
      dict_set, _remove_client, keys]

/-- C4 (code bug): with a radio that fails its first connect attempt and
would succeed on the second — the repository's own test fixture
`MockRadio(connect_fails=1)` — `run` makes exactly one attempt and lets
`ConnectionError` propagate (fatal to the proxy task), never reaching a
second attempt.  The tests `test_initial_connection_failure_and_reconnect`
and `test_backoff_delay` instead assert two (resp. three) attempts, 5 s/10 s
backoff waits, and a `_radio_connected` attribute that `MeshCoreProxy`
does not define. -/
theorem run_no_retry_on_connect_failure :
    run [false, true] = (1, Except.error "Failed to connect to radio")
    ∧ (run [false, true]).1 ≠ 2 := by
  constructor
  · rfl
  · decide

/-- C3: for either direction, any type tag, and any payload of length >= 1,
the packet decoder returns normally — either a field mapping or the
explicit no-decoding result (`None`) — and never lets an exception escape:
every raising primitive sits inside the `try` body, whose errors the
`except Exception: pass` wrapper turns into `None`. -/
theorem decoder_total_no_exception (isCmd : Bool) (packet_type : Nat)
    (payload : List Nat) (hlen : 1 ≤ payload.length) :
    ∃ d : Option Dict,
      (if isCmd then decode_command packet_type payload
       else decode_response packet_type payload) = Except.ok d := by
  cases isCmd
  · show ∃ d : Option Dict, decode_response packet_type payload = Except.ok d
    unfold decode_response
    split
    · exact ⟨none, rfl⟩
    · exact ⟨_, rfl⟩
  · show ∃ d : Option Dict, decode_command packet_type payload = Except.ok d
    unfold decode_command
    split
    · exact ⟨none, rfl⟩
    · exact ⟨_, rfl⟩

/-- Witness for C3: a truncated SEND_MSG command (tag 0x02 with no body)
decodes without an escaping exception. -/
theorem decoder_total_no_exception_witness :
    ∃ d : Option Dict,
      (if true then decode_command 0x02 [0x02]
       else decode_response 0x02 [0x02]) = Except.ok d :=
  decoder_total_no_exception true 0x02 [0x02] (by decide)

/-- C8: a battery response (tag 0x0C) with a payload of exactly 3 bytes
decodes to exactly `{level_mv: u}` with `u` the little-endian u16 of
payload bytes 1..2 — neither `used_kb` nor `total_kb` is present; with a
longer payload both optional fields are additionally returned. -/
theorem battery_decode_fields :
    (∀ b0 b1 b2 : Nat, b1 < 256 → b2 < 256 →
      decode_response 0x0C [b0, b1, b2]
        = Except.ok (some [("level_mv", PyVal.int (b1 + 256 * b2))]))
    ∧ (∀ p : List Nat, 3 < p.length →
      ∃ u t : Int, decode_response 0x0C p
        = Except.ok (some [("level_mv",
            PyVal.int (le_from_bytes ((p.drop 1).take 2))),
          ("used_kb", PyVal.int u), ("total_kb", PyVal.int t)])) := by
  constructor
  · intro b0 b1 b2 _ _
    simp [decode_response, decode_response_try, bread, le_from_bytes]
  · intro p hp
    match p, hp with
    | a :: b :: c :: d :: rest, _ =>
      refine ⟨le_from_bytes ((d :: rest).take 4),
        le_from_bytes (((d :: rest).drop 4).take 4), ?_⟩
      have hlen : ¬(a :: b :: c :: d :: rest).length < 1 := by simp
      have hlong : 3 < (a :: b :: c :: d :: rest).length := by simp
      simp [decode_response, decode_response_try, bread, hlong]

/-- Witness for C8: both conjuncts at concrete battery payloads. -/
theorem battery_decode_fields_witness :
    decode_response 0x0C [12, 5, 1]
        = Except.ok (some [("level_mv", PyVal.int (5 + 256 * 1))])
    ∧ ∃ u t : Int, decode_response 0x0C [12, 5, 1, 9]
        = Except.ok (some [("level_mv",
            PyVal.int (le_from_bytes (([12, 5, 1, 9].drop 1).take 2))),
          ("used_kb", PyVal.int u), ("total_kb", PyVal.int t)]) :=
  ⟨battery_decode_fields.1 12 5 1 (by decide) (by decide),
    battery_decode_fields.2 [12, 5, 1, 9] (by decide)⟩

end MeshcoreProxy
